import Mathlib

/-!
Shallow embedding of the control logic of the Vitess VReplication workflow
orchestrator (go/vt/vtctl/workflow/server.go), of the vtadmin workflow list
throttling classification (web UI Workflows component), and of the vtbackup
backup pruning routine, together with proofs about the embedded definitions.

Machine integers are modelled as Int; durations are carried in milliseconds
(or seconds where the source works in seconds).  Outbound RPCs and topology
reads are modelled as succeeding; the branch structure, validation gates and
error returns are transcribed from the source.
-/

namespace Vitess

/-- Canonical gRPC-style error codes used on the service boundary
(go/vt/proto/vtrpc).  Only the codes needed by the embedded verbs appear. -/
inductive ErrCode
  | ok
  | canceled
  | unknown
  | invalidArgument
  | failedPrecondition
  | internalErr
  deriving DecidableEq, Repr

/-- An error value carrying a canonical code and a message, as produced by
vterrors.Errorf / errors.New (the latter carries code unknown). -/
structure VtError where
  code : ErrCode
  message : String
  deriving DecidableEq, Repr

/-- vterrors.Wrap, transcribed from the package vterrors source (the second
document inside src/go/vt/vttablet/endtoend/config_test.go, func Wrap at
line 629): if err is nil, Wrap returns nil; otherwise it returns a wrapping
whose Error() is the message followed by ": " and the cause's message, and
whose canonical code is the cause's, since Code (line 583) delegates to the
cause of a wrapping. -/
def vterrorsWrap (e : Option VtError) (msg : String) : Option VtError :=
  match e with
  | none => none
  | some err => some ⟨err.code, msg ++ ": " ++ err.message⟩

/-- VReplication workflow type (binlogdata.VReplicationWorkflowType), the
field ts.workflowType of the traffic switcher. -/
inductive VRWorkflowType
  | moveTables
  | reshard
  | materialize
  | migrate
  | createLookupIndex
  deriving DecidableEq, Repr

/-- State.WorkflowType as computed by getWorkflowState (server.go lines
451-534): TypeMoveTables for TABLES migrations, TypeReshard otherwise,
overridden to TypeMigrate for Migrate workflows. -/
inductive StateWorkflowType
  | moveTables
  | reshard
  | migrate
  deriving DecidableEq, Repr

/-- Migration type (binlogdata.MigrationType). -/
inductive MigrationType
  | tables
  | shards
  deriving DecidableEq, Repr

/-- Per-stream replication state (binlogdata.VReplicationWorkflowState). -/
inductive StreamState
  | unknown
  | init
  | stopped
  | copying
  | running
  | errored
  deriving DecidableEq, Repr

/-- The message value marking a frozen workflow (constant Frozen = "FROZEN"). -/
def frozenMessage : String := "FROZEN"

/-- A stream as inspected by canSwitch: its state and its message column. -/
structure Stream where
  state : StreamState
  message : String
  deriving DecidableEq, Repr

/-! Backup pruning (vtbackup, src/unnamed/part_002 lines 750-789). -/

/-- One backup in the storage location, as seen by pruneBackups: its name,
the backup time parsed from the name (none when parseBackupTime fails), and
whether RemoveBackup fails for it. -/
structure BackupHandle where
  name : String
  timeSeconds : Option Int
  removeFails : Bool
  deriving DecidableEq, Repr

/-- Failure modes of the pruning loop. -/
inductive PruneError
  | parseFailed
  | removeFailed
  deriving DecidableEq, Repr

/-- Result of pruneBackups: the names removed, in order, and the error the
function returned with, if any. -/
structure PruneOutcome where
  removed : List String
  errorOut : Option PruneError
  deriving DecidableEq, Repr

/-- The removal loop of pruneBackups (src/unnamed/part_002 lines 767-788).
ListBackups returns the backups sorted oldest first; numBackups carries the
running count.  A backup younger than minRetentionTime stops the loop; a
parse or removal failure returns the error; after a successful removal the
count is decremented and the loop stops once it reaches minRetentionCount. -/
def pruneLoop (nowSeconds minRetentionTimeSeconds minRetentionCount : Int) :
    List BackupHandle → Int → PruneOutcome
  | [], _ => ⟨[], none⟩
  | b :: rest, numBackups =>
    match b.timeSeconds with
    | none => ⟨[], some PruneError.parseFailed⟩
    | some t =>
      if nowSeconds - t < minRetentionTimeSeconds then
        ⟨[], none⟩
      else if b.removeFails then
        ⟨[], some PruneError.removeFailed⟩
      else if numBackups - 1 = minRetentionCount then
        ⟨[b.name], none⟩
      else
        let res := pruneLoop nowSeconds minRetentionTimeSeconds minRetentionCount rest (numBackups - 1)
        ⟨b.name :: res.removed, res.errorOut⟩

/-- pruneBackups (src/unnamed/part_002 lines 750-789): pruning is disabled
when minRetentionTime is zero; nothing is pruned when the backup count is at
or below minRetentionCount; otherwise the removal loop runs over the backups
oldest first. -/
def pruneBackups (nowSeconds minRetentionTimeSeconds minRetentionCount : Int)
    (backups : List BackupHandle) : PruneOutcome :=
  if minRetentionTimeSeconds = 0 then ⟨[], none⟩
  else if (backups.length : Int) ≤ minRetentionCount then ⟨[], none⟩
  else pruneLoop nowSeconds minRetentionTimeSeconds minRetentionCount backups (backups.length : Int)

/-! Workflow list throttling classification (vtadmin web UI,
src/unnamed/part_000). -/

/-- ThrottleThresholdSeconds = 60 (src/unnamed/part_000 line 45). -/
def throttleThresholdSeconds : Int := 60

/-- throttler_status of a stream: the reporting component and the last
throttled timestamp in seconds (none when absent). -/
structure ThrottlerStatus where
  componentThrottled : String
  timeThrottledSeconds : Option Int
  deriving DecidableEq, Repr

/-- A stream row as rendered by the workflow list: its state bucket and its
optional throttler status. -/
structure UIStream where
  state : String
  throttlerStatus : Option ThrottlerStatus
  deriving DecidableEq, Repr

/-- The per-stream recent-throttling check (src/unnamed/part_000 lines
138-144): time_throttled must be present and its seconds value must exceed
Date.now()/1000 - ThrottleThresholdSeconds.  nowMs is Date.now() in
milliseconds; the comparison is carried out in exact rational arithmetic. -/
def streamRecentlyThrottled (nowMs : Int) (s : UIStream) : Bool :=
  match s.throttlerStatus with
  | none => false
  | some th =>
    match th.timeThrottledSeconds with
    | none => false
    | some t => decide ((t : ℚ) > (nowMs : ℚ) / 1000 - (throttleThresholdSeconds : ℚ))

/-- A stream is counted towards numThrottled only inside the Running and
Copying buckets (src/unnamed/part_000 lines 133-153). -/
def streamCountedThrottled (nowMs : Int) (s : UIStream) : Bool :=
  (s.state = "Running" || s.state = "Copying") && streamRecentlyThrottled nowMs s

/-- numThrottled for one state bucket of the workflow row. -/
def countThrottled (nowMs : Int) (streams : List UIStream) : Nat :=
  (streams.filter (streamRecentlyThrottled nowMs)).length

/-- The state label shown for a Running or Copying bucket: rebound to
Throttled when numThrottled > 0 (src/unnamed/part_000 lines 156-158). -/
def displayedBucketState (nowMs : Int) (bucket : String) (streams : List UIStream) : String :=
  if (bucket = "Running" ∨ bucket = "Copying") ∧ countThrottled nowMs streams > 0 then
    "Throttled"
  else bucket

/-! Workflow server verbs (go/vt/vtctl/workflow/server.go). -/

/-- The ephemeral workflow State snapshot built by getWorkflowState
(server.go lines 422-537). -/
structure State where
  workflow : String
  writesSwitched : Bool
  replicaCellsSwitched : List String
  replicaCellsNotSwitched : List String
  rdonlyCellsSwitched : List String
  rdonlyCellsNotSwitched : List String
  isReverse : Bool
  workflowType : StateWorkflowType
  deriving DecidableEq, Repr

/-- Health data about a workflow as returned by GetWorkflow and consumed by
canSwitch: the maximum replication transaction lag, the streams, and whether
refreshing the involved tablets failed (the latter abstracts the concurrent
RefreshTabletsByShard fan-out, already accounting for the force flag). -/
structure WorkflowHealth where
  maxVReplicationTransactionLag : Int
  streams : List Stream
  refreshFailed : Bool
  refreshDetails : String
  deriving DecidableEq, Repr

/-- One workflow as the switch-traffic verbs see it: its State, the
multi-tenant and partial-migration flags, its migration type, and its
health snapshot. -/
structure WorkflowView where
  state : State
  multiTenant : Bool
  partialMigration : Bool
  migrationType : MigrationType
  health : WorkflowHealth
  deriving DecidableEq, Repr

/-- Message constants of canSwitch (server.go lines 101-105). -/
def cannotSwitchError : String := "workflow has errors"

/-- Message for a stream still in the copy phase. -/
def cannotSwitchCopyIncomplete : String := "copy is still in progress"

/-- Message for a frozen workflow. -/
def cannotSwitchFrozen : String := "workflow is frozen"

/-- Message for replication lag above the allowed limit. -/
def cannotSwitchHighLag (lag allowed : Int) : String :=
  "replication lag " ++ toString lag ++ "s is higher than allowed lag " ++ toString allowed ++ "s"

/-- Message for a failed tablet refresh. -/
def cannotSwitchFailedTabletRefresh (details : String) : String :=
  "could not refresh all of the tablets involved in the operation:\n" ++ details

/-- The per-stream checks of canSwitch (server.go lines 3314-3326): the
FROZEN message is checked before the Copying and Error states. -/
def streamSwitchReason (st : Stream) : Option String :=
  if st.message = frozenMessage then some cannotSwitchFrozen
  else if st.state = StreamState.copying then some cannotSwitchCopyIncomplete
  else if st.state = StreamState.errored then some cannotSwitchError
  else none

/-- First blocking reason among the workflow streams, in stream order. -/
def firstStreamReason : List Stream → Option String
  | [] => none
  | st :: rest =>
    match streamSwitchReason st with
    | some r => some r
    | none => firstStreamReason rest

/-- canSwitch (server.go lines 3306-3360): the lag check comes first, then
the per-stream checks, then the tablet refresh check.  Returns the blocking
reason, or none when the switch may proceed. -/
def canSwitch (wf : WorkflowHealth) (maxAllowedReplLagSecs : Int) : Option String :=
  if wf.maxVReplicationTransactionLag > maxAllowedReplLagSecs then
    some (cannotSwitchHighLag wf.maxVReplicationTransactionLag maxAllowedReplLagSecs)
  else
    match firstStreamReason wf.streams with
    | some r => some r
    | none =>
      if wf.refreshFailed then some (cannotSwitchFailedTabletRefresh wf.refreshDetails)
      else none

/-- Traffic switch direction. -/
inductive Direction
  | forward
  | backward
  deriving DecidableEq, Repr

/-- A WorkflowSwitchTraffic request after field parsing: the two proto
durations in milliseconds (none when unset), the direction, and the parsed
tablet types as the three flags produced by parseTabletTypes. -/
structure SwitchTrafficRequest where
  timeoutMs : Option Int
  maxReplicationLagAllowedMs : Option Int
  direction : Direction
  switchReplica : Bool
  switchRdonly : Bool
  switchPrimary : Bool
  cells : List String
  force : Bool
  deriving DecidableEq, Repr

/-- DefaultTimeout = 30 * time.Second (server.go line 78), in milliseconds. -/
def defaultTimeoutMs : Int := 30000

/-- The lag limit handed to canSwitch: int64(maxReplicationLagAllowed.Seconds()),
a truncating conversion of the millisecond duration, defaulting to
DefaultTimeout (server.go lines 2712-2719, 2784). -/
def allowedLagSecs (req : SwitchTrafficRequest) : Int :=
  Int.tdiv (req.maxReplicationLagAllowedMs.getD defaultTimeoutMs) 1000

/-- The phases of a traffic switch actually dispatched by the verb. -/
inductive SwitchPhase
  | reads
  | writes
  deriving DecidableEq, Repr

/-- Result of the WorkflowSwitchTraffic verb: an error return, the return of
a nil response together with a nil error, or success with the dispatched
phases. -/
inductive SwitchTrafficResult
  | errorResult (e : VtError)
  | nilResponse
  | ok (performed : List SwitchPhase)
  deriving DecidableEq, Repr

/-- writesAlreadySwitched (server.go lines 2747-2748), computed from the
requested direction and the starting state before any reverse-workflow
redirection. -/
def writesAlreadySwitchedFlag (req : SwitchTrafficRequest) (startState : State) : Bool :=
  (decide (req.direction = Direction.forward) && startState.writesSwitched) ||
  (decide (req.direction = Direction.backward) && !startState.writesSwitched)

/-- The phases dispatched on the success path: switchReads when a read-only
tablet type was requested, then switchWrites when primary was requested
(server.go lines 2794-2811). -/
def switchTrafficPhases (req : SwitchTrafficRequest) : List SwitchPhase :=
  (if req.switchReplica || req.switchRdonly then [SwitchPhase.reads] else []) ++
  (if req.switchPrimary then [SwitchPhase.writes] else [])

/-- The validation gates inside switchReads (server.go lines 2885-2925):
at least one read-only tablet type must be requested; for a partial
migration switching is all or nothing and the reversal checks are skipped;
for a multi-tenant TABLES migration any requested cells must cover all
cells (a sorted-slice comparison, modelled as a permutation check); and a
backward read switch needs the corresponding reads to have been switched.
The dynamic list suffixes of the two INVALID_ARGUMENT messages are omitted. -/
def switchReadsGate (req : SwitchTrafficRequest) (opWf : WorkflowView) (direction : Direction)
    (allCells : List String) : Option VtError :=
  if req.switchReplica = false ∧ req.switchRdonly = false then
    some ⟨ErrCode.invalidArgument, "tablet types must be REPLICA or RDONLY"⟩
  else if opWf.partialMigration then
    none
  else if opWf.migrationType = MigrationType.tables ∧ opWf.multiTenant ∧ req.cells ≠ [] ∧
      ¬ List.Perm req.cells allCells then
    some ⟨ErrCode.invalidArgument,
      "requesting switch of read traffic for multi-tenant migrations must include all cells"⟩
  else if direction = Direction.backward ∧ req.switchReplica ∧ opWf.state.replicaCellsSwitched = [] then
    some ⟨ErrCode.failedPrecondition,
      "requesting reversal of read traffic for REPLICAs but REPLICA reads have not been switched"⟩
  else if direction = Direction.backward ∧ req.switchRdonly ∧ opWf.state.rdonlyCellsSwitched = [] then
    some ⟨ErrCode.failedPrecondition,
      "requesting reversal of read traffic for RDONLYs but RDONLY reads have not been switched"⟩
  else none

/-- Environment of a WorkflowSwitchTraffic call: the workflow named by the
request, its reverse workflow (consulted when reversing writes), and the
cell names in the topology. -/
structure SwitchEnv where
  wf : WorkflowView
  rev : WorkflowView
  allCells : List String
  deriving DecidableEq, Repr

/-- The tail of WorkflowSwitchTraffic after the direction handling
(server.go lines 2780-2811): the canSwitch gate runs unless writes are
already switched in the requested direction; then reads and writes are
switched as requested, with the downstream shard RPCs and topology writes
modelled as succeeding. -/
def switchTrafficBody (req : SwitchTrafficRequest) (opWf : WorkflowView) (direction : Direction)
    (writesAlreadySwitched : Bool) (maxAllowedReplLagSecs : Int) (allCells : List String) :
    SwitchTrafficResult :=
  let gate : Option String :=
    if writesAlreadySwitched then none else canSwitch opWf.health maxAllowedReplLagSecs
  match gate with
  | some reason =>
    SwitchTrafficResult.errorResult ⟨ErrCode.failedPrecondition,
      "cannot switch traffic for workflow " ++ opWf.state.workflow ++ " at this time: " ++ reason⟩
  | none =>
    if req.switchReplica || req.switchRdonly then
      match switchReadsGate req opWf direction allCells with
      | some e => SwitchTrafficResult.errorResult e
      | none => SwitchTrafficResult.ok (switchTrafficPhases req)
    else SwitchTrafficResult.ok (switchTrafficPhases req)

/-- WorkflowSwitchTraffic (server.go lines 2681-2857).  The timeout below
one second returns vterrors.Wrap of the nil parse error, which is nil, so
the verb returns a nil response and a nil error; Migrate workflows are
rejected; reversing writes of a multi-tenant migration is rejected; a
backward request that is not a pure read switch is redirected to the
reverse workflow with the direction flipped to forward. -/
def workflowSwitchTraffic (req : SwitchTrafficRequest) (env : SwitchEnv) : SwitchTrafficResult :=
  let timeout := req.timeoutMs.getD defaultTimeoutMs
  if timeout < 1000 then
    match vterrorsWrap none "timeout must be at least 1 second" with
    | some e => SwitchTrafficResult.errorResult e
    | none => SwitchTrafficResult.nilResponse
  else if env.wf.state.workflowType = StateWorkflowType.migrate then
    SwitchTrafficResult.errorResult ⟨ErrCode.invalidArgument,
      "invalid action for Migrate workflow: SwitchTraffic"⟩
  else
    let onlySwitchingReads := !env.wf.state.writesSwitched && !req.switchPrimary
    let writesAlreadySwitched := writesAlreadySwitchedFlag req env.wf.state
    if req.direction = Direction.backward ∧ onlySwitchingReads = false then
      if env.wf.multiTenant then
        SwitchTrafficResult.errorResult ⟨ErrCode.invalidArgument,
          "cannot reverse write traffic for multi-tenant migrations"⟩
      else
        switchTrafficBody req env.rev Direction.forward writesAlreadySwitched
          (allowedLagSecs req) env.allCells
    else
      switchTrafficBody req env.wf req.direction writesAlreadySwitched
        (allowedLagSecs req) env.allCells

/-- The workflow whose health and state the canSwitch gate and the switch
phases operate on: the reverse workflow when the verb redirects a backward
non-read-only request (server.go lines 2744-2767), the named workflow
otherwise. -/
def operativeView (req : SwitchTrafficRequest) (env : SwitchEnv) : WorkflowView :=
  if req.direction = Direction.backward ∧
      (!env.wf.state.writesSwitched && !req.switchPrimary) = false then env.rev
  else env.wf

/-! switchWrites (server.go lines 3033-3304). -/

/-- The steps of switchWrites, in source order. -/
inductive WriteAction
  | validateWorkflow
  | validatePermissions
  | checkTabletAvailability
  | lockKeyspaces
  | removeMirrorRules
  | getSequenceMetadata
  | buildStreamMigrator
  | cancelMigration
  | stopSourceWrites
  | stopStreams
  | executeLockTables
  | gatherSourcePositions
  | waitForCatchup
  | migrateStreams
  | resetSequences
  | createReverseVReplication
  | initTargetSequences
  | gatherPositions
  | createJournals
  | allowTargetWrites
  | changeRouting
  | finalizeStreamMigrator
  | startReverseVReplication
  | freezeTargetVReplication
  deriving DecidableEq, Repr

/-- The inputs that steer the switchWrites control flow; the shard RPCs and
topology operations themselves are modelled as succeeding. -/
structure SwitchWritesInput where
  frozen : Bool
  enableReverseReplication : Bool
  initializeTargetSeqs : Bool
  workflowType : VRWorkflowType
  sourceUnsharded : Bool
  sequenceMetadataNonempty : Bool
  journalsExist : Bool
  cancel : Bool
  migrationType : MigrationType
  deriving DecidableEq, Repr

/-- Result of switchWrites: the frozen no-op return, a rolled-back
cancellation, an error return, or completion; each case carries the steps
performed before returning. -/
inductive SwitchWritesResult
  | noop
  | rolledBack (actions : List WriteAction)
  | failed (e : VtError) (actions : List WriteAction)
  | completed (actions : List WriteAction)
  deriving DecidableEq, Repr

/-- The steps performed before the journal check (server.go lines
3055-3132): validation, the reverse-replication feasibility checks, the
keyspace locks, the removal of primary mirror rules, and the sequence
metadata fetch for unsharded-source MoveTables workflows. -/
def switchWritesPre (i : SwitchWritesInput) : List WriteAction :=
  [WriteAction.validateWorkflow] ++
  (if i.enableReverseReplication then
    [WriteAction.validatePermissions, WriteAction.checkTabletAvailability] else []) ++
  [WriteAction.lockKeyspaces, WriteAction.removeMirrorRules] ++
  (if i.initializeTargetSeqs ∧ i.workflowType = VRWorkflowType.moveTables ∧ i.sourceUnsharded then
    [WriteAction.getSequenceMetadata] else [])

/-- The pre-point-of-no-return steps taken when no journals exist and the
request is not a cancellation (server.go lines 3134-3264). -/
def switchWritesNoJournalSteps (i : SwitchWritesInput) : List WriteAction :=
  [WriteAction.buildStreamMigrator, WriteAction.stopSourceWrites, WriteAction.stopStreams] ++
  (if i.migrationType = MigrationType.tables then [WriteAction.executeLockTables] else []) ++
  [WriteAction.gatherSourcePositions, WriteAction.waitForCatchup, WriteAction.migrateStreams,
    WriteAction.resetSequences, WriteAction.createReverseVReplication] ++
  (if i.initializeTargetSeqs ∧ i.sequenceMetadataNonempty then
    [WriteAction.initTargetSequences] else [])

/-- The tail of the flow, from journal creation onwards (server.go lines
3276-3303). -/
def switchWritesTail (i : SwitchWritesInput) : List WriteAction :=
  [WriteAction.createJournals, WriteAction.allowTargetWrites, WriteAction.changeRouting,
    WriteAction.finalizeStreamMigrator] ++
  (if i.enableReverseReplication then [WriteAction.startReverseVReplication] else []) ++
  [WriteAction.freezeTargetVReplication]

/-- The error returned for a cancellation after the point of no return:
handleError wraps the FAILED_PRECONDITION error with "invalid cancel"
(server.go lines 3044-3048, 3266-3268). -/
def invalidCancelError : VtError :=
  ⟨ErrCode.failedPrecondition,
    "invalid cancel: traffic switching has reached the point of no return, cannot cancel"⟩

/-- switchWrites (server.go lines 3033-3304): a frozen traffic switcher is
a no-op; with no journals present, a cancel request rolls the migration
back after building the stream migrator, and otherwise the full
pre-point-of-no-return sequence runs before the tail; with journals
present, a cancel request is refused and otherwise only positions are
gathered before the tail replays. -/
def switchWrites (i : SwitchWritesInput) : SwitchWritesResult :=
  if i.frozen then SwitchWritesResult.noop
  else
    let pre := switchWritesPre i
    if i.journalsExist = false then
      if i.cancel then
        SwitchWritesResult.rolledBack
          (pre ++ [WriteAction.buildStreamMigrator, WriteAction.cancelMigration])
      else
        SwitchWritesResult.completed
          (pre ++ switchWritesNoJournalSteps i ++ switchWritesTail i)
    else
      if i.cancel then SwitchWritesResult.failed invalidCancelError pre
      else
        SwitchWritesResult.completed
          (pre ++ [WriteAction.gatherPositions] ++ switchWritesTail i)

/-! WorkflowDelete and MoveTablesComplete (server.go lines 1407-1478,
1535-1648). -/

/-- The sentinel error ErrWorkflowDeleteWritesSwitched (server.go line 128);
an errors.New value, so its canonical code is unknown. -/
def errWorkflowDeleteWritesSwitched : VtError :=
  ⟨ErrCode.unknown, "cannot delete workflow because you have already switched write traffic"⟩

/-- The sentinel error ErrWorkflowCompleteNotFullySwitched (server.go line 127). -/
def errWorkflowCompleteNotFullySwitched : VtError :=
  ⟨ErrCode.unknown, "cannot complete workflow because you have not yet switched all read and write traffic"⟩

/-- getWorkflowState returns immediately after constructing the State for a
CreateLookupIndex workflow (server.go lines 429-432), so WritesSwitched is
never set for one; for other workflows it is derived from the routing rules
or shard records (lines 451-531), abstracted here as derivedWritesSwitched. -/
def getWorkflowStateWritesSwitched (vrType : VRWorkflowType) (derivedWritesSwitched : Bool) : Bool :=
  if vrType = VRWorkflowType.createLookupIndex then false else derivedWritesSwitched

/-- Result of WorkflowDelete: an error return, the Migrate finalization
path, or the full deletion path. -/
inductive DeleteResult
  | errorResult (e : VtError)
  | migrateFinalized
  | deleted
  deriving DecidableEq, Repr

/-- WorkflowDelete (server.go lines 1535-1648): for every workflow type but
CreateLookupIndex, a switched write workflow is refused; a Migrate workflow
is finalized; otherwise the workflow and its artifacts are deleted. -/
def workflowDelete (vrType : VRWorkflowType) (state : State) : DeleteResult :=
  if vrType ≠ VRWorkflowType.createLookupIndex ∧ state.writesSwitched then
    DeleteResult.errorResult errWorkflowDeleteWritesSwitched
  else if state.workflowType = StateWorkflowType.migrate then
    DeleteResult.migrateFinalized
  else DeleteResult.deleted

/-- Result of MoveTablesComplete: an error return, the Migrate finalization
path, or the completion path that drops the sources. -/
inductive CompleteResult
  | errorResult (e : VtError)
  | migrateFinalized
  | sourcesDropped
  deriving DecidableEq, Repr

/-- MoveTablesComplete (server.go lines 1410-1478): a Migrate workflow is
finalized; otherwise the verb is refused unless writes are switched and no
cell has unswitched REPLICA or RDONLY reads, and only then are the sources
dropped. -/
def moveTablesComplete (state : State) : CompleteResult :=
  if state.workflowType = StateWorkflowType.migrate then
    CompleteResult.migrateFinalized
  else if state.writesSwitched = false ∨ state.replicaCellsNotSwitched.length > 0 ∨
      state.rdonlyCellsNotSwitched.length > 0 then
    CompleteResult.errorResult errWorkflowCompleteNotFullySwitched
  else CompleteResult.sourcesDropped

/-! WorkflowMirrorTraffic (server.go lines 3531-3598). -/

/-- Tablet types as they appear in a mirror-traffic request. -/
inductive TabletType
  | primary
  | replica
  | rdonly
  deriving DecidableEq, Repr

/-- Printed name of a State workflow type (Type values TypeMoveTables,
TypeReshard, TypeMigrate). -/
def StateWorkflowType.str : StateWorkflowType → String
  | StateWorkflowType.moveTables => "MoveTables"
  | StateWorkflowType.reshard => "Reshard"
  | StateWorkflowType.migrate => "Migrate"

/-- Printed name of a migration type (MigrationType_name). -/
def MigrationType.str : MigrationType → String
  | MigrationType.tables => "TABLES"
  | MigrationType.shards => "SHARDS"

/-- The tablet types whose traffic is already switched, collected in request
order with the per-type checks in source order (server.go lines 3559-3570). -/
def mirrorCannotSwitchTabletTypes (state : State) (tabletTypes : List TabletType) : List String :=
  tabletTypes.foldl (fun acc tt =>
    acc ++
    (if tt = TabletType.rdonly ∧ state.rdonlyCellsSwitched.length > 0 then ["rdonly"] else []) ++
    (if tt = TabletType.replica ∧ state.replicaCellsSwitched.length > 0 then ["replica"] else []) ++
    (if tt = TabletType.primary ∧ state.writesSwitched then ["primary"] else [])) []

/-- The FAILED_PRECONDITION error naming the already-switched tablet types
(server.go lines 3571-3575). -/
def mirrorSwitchedError (tts : List String) (workflow : String) : VtError :=
  ⟨ErrCode.failedPrecondition,
    "cannot mirror [" ++ String.intercalate "," tts ++ "] traffic for workflow " ++ workflow ++
      " at this time: traffic for those tablet types is switched"⟩

/-- Result of WorkflowMirrorTraffic. -/
inductive MirrorResult
  | errorResult (e : VtError)
  | mirrored
  deriving DecidableEq, Repr

/-- WorkflowMirrorTraffic (server.go lines 3531-3598): only plain MoveTables
workflows may be mirrored — not reversed, not of SHARDS migration type, not
partial, not multi-tenant — and no requested tablet type may already have
its traffic switched. -/
def workflowMirrorTraffic (wf : WorkflowView) (tabletTypes : List TabletType) : MirrorResult :=
  if wf.state.workflowType ≠ StateWorkflowType.moveTables then
    MirrorResult.errorResult ⟨ErrCode.invalidArgument,
      "invalid action for " ++ wf.state.workflowType.str ++ " workflow: MirrorTraffic"⟩
  else if wf.state.isReverse then
    MirrorResult.errorResult ⟨ErrCode.invalidArgument,
      "invalid action for reverse workflow: MirrorTraffic"⟩
  else if wf.migrationType ≠ MigrationType.tables then
    MirrorResult.errorResult ⟨ErrCode.invalidArgument,
      "invalid action for " ++ wf.migrationType.str ++ " migration type: MirrorTraffic"⟩
  else if wf.partialMigration then
    MirrorResult.errorResult ⟨ErrCode.invalidArgument,
      "invalid action for partial migration: MirrorTraffic"⟩
  else if wf.multiTenant then
    MirrorResult.errorResult ⟨ErrCode.invalidArgument,
      "invalid action for multi-tenant migration: MirrorTraffic"⟩
  else
    let tts := mirrorCannotSwitchTabletTypes wf.state tabletTypes
    if tts.length > 0 then
      MirrorResult.errorResult (mirrorSwitchedError tts wf.state.workflow)
    else MirrorResult.mirrored

/-- The direction handed to switchReads: flipped to forward when the verb
redirects to the reverse workflow (server.go line 2766), the requested
direction otherwise. -/
def effectiveDirection (req : SwitchTrafficRequest) (env : SwitchEnv) : Direction :=
  if req.direction = Direction.backward ∧
      (!env.wf.state.writesSwitched && !req.switchPrimary) = false then Direction.forward
  else req.direction

/-! Concrete fixtures used to evaluate the embedded verbs. -/

/-- A healthy running stream snapshot. -/
def exampleHealth : WorkflowHealth := ⟨0, [⟨StreamState.running, ""⟩], false, ""⟩

/-- A snapshot whose only stream is in the Error state. -/
def exampleErrorHealth : WorkflowHealth := ⟨0, [⟨StreamState.errored, ""⟩], false, ""⟩

/-- A snapshot whose only stream is still copying. -/
def exampleCopyHealth : WorkflowHealth := ⟨0, [⟨StreamState.copying, ""⟩], false, ""⟩

/-- A MoveTables workflow state with the given writes-switched flag. -/
def exampleState (ws : Bool) : State :=
  ⟨"wf1", ws, ["zone1"], [], ["zone1"], [], false, StateWorkflowType.moveTables⟩

/-- A single-tenant table-migration view over the given state and health. -/
def exampleView (ws : Bool) (h : WorkflowHealth) : WorkflowView :=
  ⟨exampleState ws, false, false, MigrationType.tables, h⟩

/-- An environment pairing the workflow with its reverse twin. -/
def exampleEnv (ws : Bool) (h : WorkflowHealth) : SwitchEnv :=
  ⟨exampleView ws h, exampleView (!ws) h, ["zone1"]⟩

/-- A multi-tenant variant of the environment. -/
def exampleEnvMultiTenant : SwitchEnv :=
  ⟨⟨exampleState true, true, false, MigrationType.tables, exampleHealth⟩,
    ⟨exampleState false, true, false, MigrationType.tables, exampleHealth⟩, ["zone1"]⟩

/-- A forward REPLICA-only switch request with no explicit timeouts. -/
def exampleReq : SwitchTrafficRequest :=
  ⟨none, none, Direction.forward, true, false, false, [], false⟩

/-- A backward request covering primary traffic. -/
def exampleReverseWritesReq : SwitchTrafficRequest :=
  ⟨none, none, Direction.backward, false, false, true, [], false⟩

/-! Theorems. -/

/-- C8: a Running or Copying stream is counted as throttled exactly when its
throttler status carries a time_throttled timestamp and now minus that
timestamp is under the 60-second throttling window; and a Running or Copying
bucket of the workflow row is displayed as Throttled exactly when it
contains such a stream. -/
theorem C8_throttled_classification (nowMs : Int) (s : UIStream)
    (hs : s.state = "Running" ∨ s.state = "Copying")
    (bucket : String) (streams : List UIStream)
    (hb : bucket = "Running" ∨ bucket = "Copying") :
    (streamCountedThrottled nowMs s = true ↔
      ∃ th t, s.throttlerStatus = some th ∧ th.timeThrottledSeconds = some t ∧
        (nowMs : ℚ) / 1000 - (t : ℚ) < 60) ∧
    (displayedBucketState nowMs bucket streams = "Throttled" ↔
      ∃ x ∈ streams, streamRecentlyThrottled nowMs x = true) := by
  have hthrot : ∀ x : UIStream, streamRecentlyThrottled nowMs x = true ↔
      ∃ th t, x.throttlerStatus = some th ∧ th.timeThrottledSeconds = some t ∧
        (nowMs : ℚ) / 1000 - (t : ℚ) < 60 := by
    intro x
    rw [streamRecentlyThrottled]
    rcases hth : x.throttlerStatus with _ | th
    · simp
    · rcases ht : th.timeThrottledSeconds with _ | t
      · simp [ht]
      · simp only [ht, decide_eq_true_eq]
        constructor
        · intro hgt
          refine ⟨th, t, rfl, ht, ?_⟩
          have : (throttleThresholdSeconds : ℚ) = 60 := by norm_num [throttleThresholdSeconds]
          rw [this] at hgt
          linarith
        · rintro ⟨th2, t2, hth2, ht2, hlt⟩
          obtain rfl : th = th2 := by injection hth2
          obtain rfl : t = t2 := by rw [ht] at ht2; injection ht2
          have : (throttleThresholdSeconds : ℚ) = 60 := by norm_num [throttleThresholdSeconds]
          rw [this]
          linarith
  constructor
  · have hstate : (decide (s.state = "Running") || decide (s.state = "Copying")) = true := by
      rcases hs with h | h <;> simp [h]
    rw [streamCountedThrottled, hstate, Bool.true_and]
    exact hthrot s
  · have hbne : bucket ≠ "Throttled" := by
      rcases hb with h | h <;> simp [h]
    rw [displayedBucketState]
    by_cases hpos : countThrottled nowMs streams > 0
    · rw [if_pos ⟨hb, hpos⟩]
      simp only [true_iff]
      rw [countThrottled] at hpos
      have : streams.filter (streamRecentlyThrottled nowMs) ≠ [] := by
        intro hnil
        rw [hnil] at hpos
        simp at hpos
      rcases List.exists_mem_of_ne_nil _ this with ⟨x, hx⟩
      have hmf := List.mem_filter.mp hx
      exact ⟨x, hmf.1, hmf.2⟩
    · rw [if_neg (by intro hcon; exact hpos hcon.2)]
      constructor
      · intro h; exact absurd h hbne
      · rintro ⟨x, hxmem, hxthr⟩
        exfalso
        apply hpos
        rw [countThrottled]
        have : x ∈ streams.filter (streamRecentlyThrottled nowMs) :=
          List.mem_filter.mpr ⟨hxmem, hxthr⟩
        exact List.length_pos.mpr (fun hnil => by rw [hnil] at this; simp at this)

/-- Witness for C8 at a concrete throttled Running stream. -/
theorem C8_throttled_classification_witness :
    (streamCountedThrottled 100000 ⟨"Running", some ⟨"vcopier", some 90⟩⟩ = true ↔
      ∃ th t, (some (⟨"vcopier", some 90⟩ : ThrottlerStatus)) = some th ∧
        th.timeThrottledSeconds = some t ∧ ((100000 : Int) : ℚ) / 1000 - (t : ℚ) < 60) ∧
    (displayedBucketState 100000 "Running" [⟨"Running", some ⟨"vcopier", some 90⟩⟩] = "Throttled" ↔
      ∃ x ∈ [(⟨"Running", some ⟨"vcopier", some 90⟩⟩ : UIStream)],
        streamRecentlyThrottled 100000 x = true) :=
  C8_throttled_classification 100000 ⟨"Running", some ⟨"vcopier", some 90⟩⟩ (Or.inl rfl)
    "Running" [⟨"Running", some ⟨"vcopier", some 90⟩⟩] (Or.inl rfl)

/-- Each removal past the initial count check keeps the running count above
or at minRetentionCount: the removed prefix is bounded by the slack. -/
theorem pruneLoop_removed_le (nowS mrt c : Int) :
    ∀ (l : List BackupHandle) (n : Int), c < n →
      ((pruneLoop nowS mrt c l n).removed.length : Int) ≤ n - c := by
  intro l
  induction l with
  | nil =>
    intro n hn
    simp only [pruneLoop, List.length_nil]
    omega
  | cons b rest ih =>
    intro n hn
    rcases hb : b.timeSeconds with _ | t
    · simp only [pruneLoop, hb, List.length_nil]
      omega
    · simp only [pruneLoop, hb]
      by_cases h1 : nowS - t < mrt
      · rw [if_pos h1]
        simp only [List.length_nil]
        omega
      · rw [if_neg h1]
        by_cases h2 : b.removeFails
        · rw [if_pos h2]
          simp only [List.length_nil]
          omega
        · rw [if_neg h2]
          by_cases h3 : n - 1 = c
          · rw [if_pos h3]
            simp only [List.length_singleton]
            omega
          · rw [if_neg h3]
            simp only [List.length_cons]
            have hrec := ih (n - 1) (by omega)
            push_cast
            push_cast at hrec
            omega

/-- C10: pruneBackups removes nothing when minRetentionTime is zero and
nothing when the backup count is at or below minRetentionCount, and in
every case the backups left in place are at least the smaller of the
original count and minRetentionCount, so a removal never drops the count
below minRetentionCount. -/
theorem C10_prune_backups_retention (nowS mrt c : Int) (backups : List BackupHandle) :
    (mrt = 0 → pruneBackups nowS mrt c backups = ⟨[], none⟩) ∧
    ((backups.length : Int) ≤ c → pruneBackups nowS mrt c backups = ⟨[], none⟩) ∧
    (backups.length : Int) - ((pruneBackups nowS mrt c backups).removed.length : Int) ≥
      min (backups.length : Int) c := by
  have hmin1 : min (backups.length : Int) c ≤ (backups.length : Int) := min_le_left _ _
  have hmin2 : min (backups.length : Int) c ≤ c := min_le_right _ _
  refine ⟨?_, ?_, ?_⟩
  · intro h0
    rw [pruneBackups, if_pos h0]
  · intro hle
    rw [pruneBackups]
    by_cases h0 : mrt = 0
    · rw [if_pos h0]
    · rw [if_neg h0, if_pos hle]
  · rw [pruneBackups]
    by_cases h0 : mrt = 0
    · rw [if_pos h0]
      simp only [List.length_nil]
      omega
    · rw [if_neg h0]
      by_cases hle : (backups.length : Int) ≤ c
      · rw [if_pos hle]
        simp only [List.length_nil]
        omega
      · rw [if_neg hle]
        have := pruneLoop_removed_le nowS mrt c backups (backups.length : Int) (by omega)
        omega

/-- Witness for C10: no pruning with two backups and the zero retention
time, and the retention bound at that input. -/
theorem C10_prune_backups_retention_witness :
    pruneBackups 1000 0 1 [⟨"a", some 0, false⟩, ⟨"b", some 10, false⟩] = ⟨[], none⟩ :=
  (C10_prune_backups_retention 1000 0 1 [⟨"a", some 0, false⟩, ⟨"b", some 10, false⟩]).1 rfl

/-- C4: with the workflow state as getWorkflowState computes it, a workflow
whose write traffic is switched is refused by WorkflowDelete with the
writes-switched error and nothing is deleted, while a workflow whose writes
are not switched proceeds to deletion.  The CreateLookupIndex carve-out in
the check is unobservable because getWorkflowState never reports writes as
switched for such a workflow. -/
theorem C4_workflow_delete_writes_switched (vrType : VRWorkflowType) (derived : Bool)
    (state : State)
    (hws : state.writesSwitched = getWorkflowStateWritesSwitched vrType derived) :
    (state.writesSwitched = true →
      workflowDelete vrType state = DeleteResult.errorResult errWorkflowDeleteWritesSwitched) ∧
    (state.writesSwitched = false →
      workflowDelete vrType state ≠ DeleteResult.errorResult errWorkflowDeleteWritesSwitched ∧
      (workflowDelete vrType state = DeleteResult.migrateFinalized ∨
        workflowDelete vrType state = DeleteResult.deleted)) := by
  constructor
  · intro htrue
    have hne : vrType ≠ VRWorkflowType.createLookupIndex := by
      intro hcli
      rw [hcli] at hws
      rw [getWorkflowStateWritesSwitched, if_pos rfl] at hws
      rw [htrue] at hws
      exact Bool.true_eq_false.mp hws
    rw [workflowDelete, if_pos ⟨hne, htrue⟩]
  · intro hfalse
    have hcond : ¬ (vrType ≠ VRWorkflowType.createLookupIndex ∧ state.writesSwitched) := by
      rintro ⟨-, hw⟩
      rw [hfalse] at hw
      exact Bool.false_ne_true hw
    rw [workflowDelete, if_neg hcond]
    by_cases hmig : state.workflowType = StateWorkflowType.migrate
    · rw [if_pos hmig]
      exact ⟨fun h => (nomatch h), Or.inl rfl⟩
    · rw [if_neg hmig]
      exact ⟨fun h => (nomatch h), Or.inr rfl⟩

/-- Witness for C4 at a MoveTables workflow with switched writes. -/
theorem C4_workflow_delete_writes_switched_witness :
    workflowDelete VRWorkflowType.moveTables
        ⟨"wf", true, [], [], [], [], false, StateWorkflowType.moveTables⟩ =
      DeleteResult.errorResult errWorkflowDeleteWritesSwitched :=
  (C4_workflow_delete_writes_switched VRWorkflowType.moveTables true
    ⟨"wf", true, [], [], [], [], false, StateWorkflowType.moveTables⟩ rfl).1 rfl

/-- C5: for a non-Migrate MoveTables workflow, MoveTablesComplete returns
the not-fully-switched error whenever writes are unswitched or some cell
still has unswitched REPLICA or RDONLY reads, and it proceeds to drop the
sources exactly when all three kinds of traffic are switched. -/
theorem C5_move_tables_complete_requires_full_switch (state : State)
    (h : state.workflowType = StateWorkflowType.moveTables) :
    ((state.writesSwitched = false ∨ state.replicaCellsNotSwitched ≠ [] ∨
        state.rdonlyCellsNotSwitched ≠ []) →
      moveTablesComplete state = CompleteResult.errorResult errWorkflowCompleteNotFullySwitched) ∧
    ((state.writesSwitched = true ∧ state.replicaCellsNotSwitched = [] ∧
        state.rdonlyCellsNotSwitched = []) →
      moveTablesComplete state = CompleteResult.sourcesDropped) := by
  have hne : state.workflowType ≠ StateWorkflowType.migrate := by
    rw [h]; intro hc; cases hc
  constructor
  · intro hcond
    rw [moveTablesComplete, if_neg hne, if_pos]
    rcases hcond with hw | hr | hd
    · exact Or.inl hw
    · exact Or.inr (Or.inl (List.length_pos.mpr hr))
    · exact Or.inr (Or.inr (List.length_pos.mpr hd))
  · rintro ⟨hw, hr, hd⟩
    rw [moveTablesComplete, if_neg hne, if_neg]
    rintro (hw2 | hr2 | hd2)
    · rw [hw] at hw2; exact Bool.true_eq_false.mp hw2
    · rw [hr] at hr2; simp at hr2
    · rw [hd] at hd2; simp at hd2

/-- Witness for C5: an unswitched MoveTables workflow is refused, a fully
switched one drops the sources. -/
theorem C5_move_tables_complete_requires_full_switch_witness :
    moveTablesComplete ⟨"wf", false, [], [], [], [], false, StateWorkflowType.moveTables⟩ =
      CompleteResult.errorResult errWorkflowCompleteNotFullySwitched :=
  (C5_move_tables_complete_requires_full_switch
    ⟨"wf", false, [], [], [], [], false, StateWorkflowType.moveTables⟩ rfl).1 (Or.inl rfl)

/-- A requested tablet type whose traffic is switched forces a nonempty
cannot-switch list. -/
theorem mirrorCannotSwitch_ne_nil (state : State) (tabletTypes : List TabletType)
    (hbad : (TabletType.rdonly ∈ tabletTypes ∧ state.rdonlyCellsSwitched ≠ []) ∨
        (TabletType.replica ∈ tabletTypes ∧ state.replicaCellsSwitched ≠ []) ∨
        (TabletType.primary ∈ tabletTypes ∧ state.writesSwitched = true)) :
    mirrorCannotSwitchTabletTypes state tabletTypes ≠ [] := by
  rw [mirrorCannotSwitchTabletTypes]
  have key : ∀ (tts : List TabletType) (acc : List String),
      ((TabletType.rdonly ∈ tts ∧ state.rdonlyCellsSwitched ≠ []) ∨
        (TabletType.replica ∈ tts ∧ state.replicaCellsSwitched ≠ []) ∨
        (TabletType.primary ∈ tts ∧ state.writesSwitched = true)) ∨ acc ≠ [] →
      List.foldl (fun acc2 tt2 =>
        acc2 ++
        (if tt2 = TabletType.rdonly ∧ state.rdonlyCellsSwitched.length > 0 then ["rdonly"] else []) ++
        (if tt2 = TabletType.replica ∧ state.replicaCellsSwitched.length > 0 then ["replica"] else []) ++
        (if tt2 = TabletType.primary ∧ state.writesSwitched then ["primary"] else [])) acc tts ≠ [] := by
    intro tts
    induction tts with
    | nil =>
      intro acc hc
      rcases hc with (⟨hm, -⟩ | ⟨hm, -⟩ | ⟨hm, -⟩) | hacc
      · cases hm
      · cases hm
      · cases hm
      · simpa using hacc
    | cons tt rest ih =>
      intro acc hc
      rw [List.foldl_cons]
      apply ih
      rcases hc with (⟨hm, hsw⟩ | ⟨hm, hsw⟩ | ⟨hm, hsw⟩) | hacc
      · rcases List.mem_cons.mp hm with rfl | hmem
        · right
          have h1 : (if TabletType.rdonly = TabletType.rdonly ∧
              state.rdonlyCellsSwitched.length > 0 then ["rdonly"] else []) = ["rdonly"] :=
            if_pos ⟨rfl, List.length_pos.mpr hsw⟩
          simp [h1, List.append_eq_nil]
          exact fun _ => hsw
        · exact Or.inl (Or.inl ⟨hmem, hsw⟩)
      · rcases List.mem_cons.mp hm with rfl | hmem
        · right
          have h1 : (if TabletType.replica = TabletType.replica ∧
              state.replicaCellsSwitched.length > 0 then ["replica"] else []) = ["replica"] :=
            if_pos ⟨rfl, List.length_pos.mpr hsw⟩
          simp [h1, List.append_eq_nil]
          exact fun _ => hsw
        · exact Or.inl (Or.inr (Or.inl ⟨hmem, hsw⟩))
      · rcases List.mem_cons.mp hm with rfl | hmem
        · right
          have h1 : (if TabletType.primary = TabletType.primary ∧
              state.writesSwitched = true then ["primary"] else []) = ["primary"] :=
            if_pos ⟨rfl, hsw⟩
          simp [h1, List.append_eq_nil]
          exact fun _ => hsw
        · exact Or.inl (Or.inr (Or.inr ⟨hmem, hsw⟩))
      · right
        intro hnil
        apply hacc
        rcases List.append_eq_nil.mp hnil with ⟨h1, -⟩
        rcases List.append_eq_nil.mp h1 with ⟨h2, -⟩
        exact (List.append_eq_nil.mp h2).1
  exact key tabletTypes [] (Or.inl hbad)

/-- C7: WorkflowMirrorTraffic rejects with INVALID_ARGUMENT any workflow
that is not MoveTables, or is reversed, or partial, or multi-tenant; and for
a plain MoveTables table migration it rejects with the FAILED_PRECONDITION
switched-traffic error whenever a requested tablet type already has its
traffic switched, mirroring nothing in either case. -/
theorem C7_mirror_traffic_validations (wf : WorkflowView) (tabletTypes : List TabletType)
    (hone : (wf.state.workflowType ≠ StateWorkflowType.moveTables ∨ wf.state.isReverse = true ∨
        wf.partialMigration = true ∨ wf.multiTenant = true) ∨
      (wf.state.workflowType = StateWorkflowType.moveTables ∧ wf.state.isReverse = false ∧
        wf.migrationType = MigrationType.tables ∧ wf.partialMigration = false ∧
        wf.multiTenant = false ∧
        ((TabletType.rdonly ∈ tabletTypes ∧ wf.state.rdonlyCellsSwitched ≠ []) ∨
          (TabletType.replica ∈ tabletTypes ∧ wf.state.replicaCellsSwitched ≠ []) ∨
          (TabletType.primary ∈ tabletTypes ∧ wf.state.writesSwitched = true)))) :
    (workflowMirrorTraffic wf tabletTypes ≠ MirrorResult.mirrored) ∧
    ((wf.state.workflowType ≠ StateWorkflowType.moveTables ∨ wf.state.isReverse = true ∨
        wf.partialMigration = true ∨ wf.multiTenant = true) →
      ∃ e, workflowMirrorTraffic wf tabletTypes = MirrorResult.errorResult e ∧
        e.code = ErrCode.invalidArgument) ∧
    ((wf.state.workflowType = StateWorkflowType.moveTables ∧ wf.state.isReverse = false ∧
        wf.migrationType = MigrationType.tables ∧ wf.partialMigration = false ∧
        wf.multiTenant = false ∧
        ((TabletType.rdonly ∈ tabletTypes ∧ wf.state.rdonlyCellsSwitched ≠ []) ∨
          (TabletType.replica ∈ tabletTypes ∧ wf.state.replicaCellsSwitched ≠ []) ∨
          (TabletType.primary ∈ tabletTypes ∧ wf.state.writesSwitched = true))) →
      workflowMirrorTraffic wf tabletTypes =
        MirrorResult.errorResult
          (mirrorSwitchedError (mirrorCannotSwitchTabletTypes wf.state tabletTypes)
            wf.state.workflow)) := by
  have hinvalid : (wf.state.workflowType ≠ StateWorkflowType.moveTables ∨ wf.state.isReverse = true ∨
      wf.partialMigration = true ∨ wf.multiTenant = true) →
      ∃ e, workflowMirrorTraffic wf tabletTypes = MirrorResult.errorResult e ∧
        e.code = ErrCode.invalidArgument := by
    intro hcase
    rw [workflowMirrorTraffic]
    by_cases h1 : wf.state.workflowType ≠ StateWorkflowType.moveTables
    · rw [if_pos h1]; exact ⟨_, rfl, rfl⟩
    · rw [if_neg h1]
      by_cases h2 : wf.state.isReverse
      · rw [if_pos h2]; exact ⟨_, rfl, rfl⟩
      · rw [if_neg h2]
        by_cases h3 : wf.migrationType ≠ MigrationType.tables
        · rw [if_pos h3]; exact ⟨_, rfl, rfl⟩
        · rw [if_neg h3]
          by_cases h4 : wf.partialMigration
          · rw [if_pos h4]; exact ⟨_, rfl, rfl⟩
          · rw [if_neg h4]
            by_cases h5 : wf.multiTenant
            · rw [if_pos h5]; exact ⟨_, rfl, rfl⟩
            · exfalso
              rcases hcase with hc | hc | hc | hc
              · exact h1 hc
              · exact h2 hc
              · exact h4 hc
              · exact h5 hc
  have hprecond : (wf.state.workflowType = StateWorkflowType.moveTables ∧ wf.state.isReverse = false ∧
      wf.migrationType = MigrationType.tables ∧ wf.partialMigration = false ∧
      wf.multiTenant = false ∧
      ((TabletType.rdonly ∈ tabletTypes ∧ wf.state.rdonlyCellsSwitched ≠ []) ∨
        (TabletType.replica ∈ tabletTypes ∧ wf.state.replicaCellsSwitched ≠ []) ∨
        (TabletType.primary ∈ tabletTypes ∧ wf.state.writesSwitched = true))) →
      workflowMirrorTraffic wf tabletTypes =
        MirrorResult.errorResult
          (mirrorSwitchedError (mirrorCannotSwitchTabletTypes wf.state tabletTypes)
            wf.state.workflow) := by
    rintro ⟨h1, h2, h3, h4, h5, hbad⟩
    rw [workflowMirrorTraffic, if_neg (by rw [h1]; intro hc; exact hc rfl),
      if_neg (by rw [h2]; exact Bool.false_ne_true),
      if_neg (by rw [h3]; intro hc; exact hc rfl),
      if_neg (by rw [h4]; exact Bool.false_ne_true),
      if_neg (by rw [h5]; exact Bool.false_ne_true),
      if_pos (List.length_pos.mpr (mirrorCannotSwitch_ne_nil wf.state tabletTypes hbad))]
  refine ⟨?_, hinvalid, hprecond⟩
  rcases hone with hcase | hcase
  · rcases hinvalid hcase with ⟨e, he, -⟩
    rw [he]
    intro hc
    cases hc
  · rw [hprecond hcase]
    intro hc
    cases hc

/-- Witness for C7: mirroring a reversed workflow is rejected with
INVALID_ARGUMENT. -/
theorem C7_mirror_traffic_validations_witness :
    workflowMirrorTraffic
        ⟨⟨"wf_reverse", false, [], [], [], [], true, StateWorkflowType.moveTables⟩,
          false, false, MigrationType.tables, ⟨0, [], false, ""⟩⟩ [TabletType.replica] ≠
      MirrorResult.mirrored :=
  (C7_mirror_traffic_validations
    ⟨⟨"wf_reverse", false, [], [], [], [], true, StateWorkflowType.moveTables⟩,
      false, false, MigrationType.tables, ⟨0, [], false, ""⟩⟩ [TabletType.replica]
    (Or.inl (Or.inr (Or.inl rfl)))).1

/-- Every step taken before the journal check is one of the setup steps. -/
theorem switchWritesPre_mem (i : SwitchWritesInput) (a : WriteAction)
    (ha : a ∈ switchWritesPre i) :
    a = WriteAction.validateWorkflow ∨ a = WriteAction.validatePermissions ∨
    a = WriteAction.checkTabletAvailability ∨ a = WriteAction.lockKeyspaces ∨
    a = WriteAction.removeMirrorRules ∨ a = WriteAction.getSequenceMetadata := by
  rw [switchWritesPre] at ha
  split_ifs at ha <;> simp at ha <;> tauto

/-- Every step of the tail is one of the post-point-of-no-return steps. -/
theorem switchWritesTail_mem (i : SwitchWritesInput) (a : WriteAction)
    (ha : a ∈ switchWritesTail i) :
    a = WriteAction.createJournals ∨ a = WriteAction.allowTargetWrites ∨
    a = WriteAction.changeRouting ∨ a = WriteAction.finalizeStreamMigrator ∨
    a = WriteAction.startReverseVReplication ∨ a = WriteAction.freezeTargetVReplication := by
  rw [switchWritesTail] at ha
  split_ifs at ha <;> simp at ha <;> tauto

/-- C2: with journals already present on the sources, switchWrites skips
every pre-point-of-no-return step and replays only the tail after gathering
positions; a cancel request in that state fails with the
FAILED_PRECONDITION point-of-no-return error having performed only the
setup steps; and a cancel request before any journal exists rolls the
migration back without creating journals, allowing target writes, changing
routing, or freezing. -/
theorem C2_switch_writes_journal_logic (i : SwitchWritesInput) (hfrozen : i.frozen = false) :
    (i.journalsExist = true ∧ i.cancel = false →
      switchWrites i = SwitchWritesResult.completed
        (switchWritesPre i ++ [WriteAction.gatherPositions] ++ switchWritesTail i) ∧
      (∀ a ∈ switchWritesPre i ++ [WriteAction.gatherPositions] ++ switchWritesTail i,
        a ≠ WriteAction.buildStreamMigrator ∧ a ≠ WriteAction.stopSourceWrites ∧
        a ≠ WriteAction.stopStreams ∧ a ≠ WriteAction.executeLockTables ∧
        a ≠ WriteAction.waitForCatchup ∧ a ≠ WriteAction.migrateStreams ∧
        a ≠ WriteAction.resetSequences ∧ a ≠ WriteAction.createReverseVReplication) ∧
      WriteAction.gatherPositions ∈
        switchWritesPre i ++ [WriteAction.gatherPositions] ++ switchWritesTail i ∧
      WriteAction.createJournals ∈ switchWritesTail i ∧
      WriteAction.allowTargetWrites ∈ switchWritesTail i ∧
      WriteAction.changeRouting ∈ switchWritesTail i ∧
      WriteAction.finalizeStreamMigrator ∈ switchWritesTail i ∧
      WriteAction.freezeTargetVReplication ∈ switchWritesTail i) ∧
    (i.journalsExist = true ∧ i.cancel = true →
      switchWrites i = SwitchWritesResult.failed invalidCancelError (switchWritesPre i)) ∧
    (i.journalsExist = false ∧ i.cancel = true →
      switchWrites i = SwitchWritesResult.rolledBack
        (switchWritesPre i ++ [WriteAction.buildStreamMigrator, WriteAction.cancelMigration]) ∧
      (∀ a ∈ switchWritesPre i ++ [WriteAction.buildStreamMigrator, WriteAction.cancelMigration],
        a ≠ WriteAction.createJournals ∧ a ≠ WriteAction.allowTargetWrites ∧
        a ≠ WriteAction.changeRouting ∧ a ≠ WriteAction.freezeTargetVReplication)) := by
  refine ⟨?_, ?_, ?_⟩
  · rintro ⟨hj, hc⟩
    refine ⟨by simp [switchWrites, hfrozen, hj, hc], ?_, ?_, ?_, ?_, ?_, ?_, ?_⟩
    · intro a ha
      have hallow : a ∈ ([WriteAction.validateWorkflow, WriteAction.validatePermissions,
          WriteAction.checkTabletAvailability, WriteAction.lockKeyspaces,
          WriteAction.removeMirrorRules, WriteAction.getSequenceMetadata,
          WriteAction.gatherPositions, WriteAction.createJournals, WriteAction.allowTargetWrites,
          WriteAction.changeRouting, WriteAction.finalizeStreamMigrator,
          WriteAction.startReverseVReplication, WriteAction.freezeTargetVReplication] :
          List WriteAction) := by
        rcases List.mem_append.mp ha with h12 | h3
        · rcases List.mem_append.mp h12 with h1 | h2
          · rcases switchWritesPre_mem i a h1 with h | h | h | h | h | h <;> subst h <;> decide
          · have : a = WriteAction.gatherPositions := by simpa using h2
            subst this; decide
        · rcases switchWritesTail_mem i a h3 with h | h | h | h | h | h <;> subst h <;> decide
      have hd : a = WriteAction.validateWorkflow ∨ a = WriteAction.validatePermissions ∨
          a = WriteAction.checkTabletAvailability ∨ a = WriteAction.lockKeyspaces ∨
          a = WriteAction.removeMirrorRules ∨ a = WriteAction.getSequenceMetadata ∨
          a = WriteAction.gatherPositions ∨ a = WriteAction.createJournals ∨
          a = WriteAction.allowTargetWrites ∨ a = WriteAction.changeRouting ∨
          a = WriteAction.finalizeStreamMigrator ∨ a = WriteAction.startReverseVReplication ∨
          a = WriteAction.freezeTargetVReplication := by simpa using hallow
      rcases hd with rfl | rfl | rfl | rfl | rfl | rfl | rfl | rfl | rfl | rfl | rfl | rfl | rfl <;>
        decide
    · exact List.mem_append.mpr (Or.inl (List.mem_append.mpr (Or.inr (by simp))))
    · simp [switchWritesTail]
    · simp [switchWritesTail]
    · simp [switchWritesTail]
    · simp [switchWritesTail]
    · simp [switchWritesTail]
  · rintro ⟨hj, hc⟩
    simp [switchWrites, hfrozen, hj, hc]
  · rintro ⟨hj, hc⟩
    refine ⟨by simp [switchWrites, hfrozen, hj, hc], ?_⟩
    intro a ha
    rcases List.mem_append.mp ha with h1 | h2
    · rcases switchWritesPre_mem i a h1 with h | h | h | h | h | h <;> subst h <;> decide
    · have : a = WriteAction.buildStreamMigrator ∨ a = WriteAction.cancelMigration := by
        simpa using h2
      rcases this with rfl | rfl <;> decide

/-- Witness for C2: a cancel request with journals present is refused with
the point-of-no-return error. -/
theorem C2_switch_writes_journal_logic_witness :
    switchWrites ⟨false, true, false, VRWorkflowType.moveTables, false, false, true, true,
        MigrationType.tables⟩ =
      SwitchWritesResult.failed invalidCancelError
        (switchWritesPre ⟨false, true, false, VRWorkflowType.moveTables, false, false, true, true,
          MigrationType.tables⟩) :=
  (C2_switch_writes_journal_logic ⟨false, true, false, VRWorkflowType.moveTables, false, false,
    true, true, MigrationType.tables⟩ rfl).2.1 ⟨rfl, rfl⟩

/-- C1 (code evaluation at the failing inputs): a WorkflowSwitchTraffic
request whose Timeout is set below one second makes the verb return a nil
response together with a nil error — vterrors.Wrap is applied to the nil
parse error — so no INVALID_ARGUMENT error is produced and no traffic is
switched. -/
theorem C1_timeout_under_one_second_returns_nil (t : Int) (ht : t < 1000)
    (req : SwitchTrafficRequest) (env : SwitchEnv) :
    workflowSwitchTraffic { req with timeoutMs := some t } env =
      SwitchTrafficResult.nilResponse := by
  simp only [workflowSwitchTraffic, Option.getD_some, vterrorsWrap]
  rw [if_pos ht]

/-- Witness for C1 at a 500 millisecond timeout. -/
theorem C1_timeout_under_one_second_returns_nil_witness :
    workflowSwitchTraffic { exampleReq with timeoutMs := some 500 }
        (exampleEnv true exampleHealth) = SwitchTrafficResult.nilResponse :=
  C1_timeout_under_one_second_returns_nil 500 (by decide) exampleReq
    (exampleEnv true exampleHealth)

/-- C6: a backward WorkflowSwitchTraffic request that covers primary
traffic on a multi-tenant migration is rejected with the INVALID_ARGUMENT
reverse-writes error before any switching. -/
theorem C6_multitenant_reverse_writes_rejected (req : SwitchTrafficRequest) (env : SwitchEnv)
    (htimeout : ¬ (req.timeoutMs.getD defaultTimeoutMs < 1000))
    (hmig : ¬ env.wf.state.workflowType = StateWorkflowType.migrate)
    (hmt : env.wf.multiTenant = true)
    (hdir : req.direction = Direction.backward)
    (hprimary : req.switchPrimary = true) :
    workflowSwitchTraffic req env = SwitchTrafficResult.errorResult
      ⟨ErrCode.invalidArgument, "cannot reverse write traffic for multi-tenant migrations"⟩ := by
  simp only [workflowSwitchTraffic]
  rw [if_neg htimeout, if_neg hmig]
  have hcond : req.direction = Direction.backward ∧
      (!env.wf.state.writesSwitched && !req.switchPrimary) = false :=
    ⟨hdir, by rw [hprimary]; simp⟩
  rw [if_pos hcond, if_pos hmt]

/-- Witness for C6. -/
theorem C6_multitenant_reverse_writes_rejected_witness :
    workflowSwitchTraffic exampleReverseWritesReq exampleEnvMultiTenant =
      SwitchTrafficResult.errorResult
        ⟨ErrCode.invalidArgument, "cannot reverse write traffic for multi-tenant migrations"⟩ :=
  C6_multitenant_reverse_writes_rejected exampleReverseWritesReq exampleEnvMultiTenant
    (by decide) (by decide) rfl rfl rfl

/-- A stream in the Error or Copying state, or carrying the FROZEN message,
yields a blocking reason. -/
theorem streamSwitchReason_isSome (s : Stream)
    (h : s.state = StreamState.errored ∨ s.state = StreamState.copying ∨
      s.message = frozenMessage) :
    (streamSwitchReason s).isSome = true := by
  rw [streamSwitchReason]
  split_ifs with h1 h2 h3
  · rfl
  · rfl
  · rfl
  · exfalso
    rcases h with h | h | h
    · exact h3 h
    · exact h2 h
    · exact h1 h

/-- A blocked stream anywhere in the list yields a blocking reason. -/
theorem firstStreamReason_isSome (l : List Stream)
    (h : ∃ s ∈ l, (streamSwitchReason s).isSome = true) :
    (firstStreamReason l).isSome = true := by
  induction l with
  | nil =>
    rcases h with ⟨s, hs, -⟩
    cases hs
  | cons x rest ih =>
    simp only [firstStreamReason]
    cases hx : streamSwitchReason x with
    | some r => rfl
    | none =>
      rcases h with ⟨s, hs, hsome⟩
      rcases List.mem_cons.mp hs with rfl | hmem
      · rw [hx] at hsome
        cases hsome
      · exact ih ⟨s, hmem, hsome⟩

/-- canSwitch returns a reason whenever some stream is blocked or the lag
exceeds the allowed limit. -/
theorem canSwitch_isSome (h : WorkflowHealth) (allowed : Int)
    (hbad : (∃ s ∈ h.streams, s.state = StreamState.errored ∨ s.state = StreamState.copying ∨
        s.message = frozenMessage) ∨ h.maxVReplicationTransactionLag > allowed) :
    ∃ r, canSwitch h allowed = some r := by
  rw [canSwitch]
  by_cases hlag : h.maxVReplicationTransactionLag > allowed
  · rw [if_pos hlag]
    exact ⟨_, rfl⟩
  · rw [if_neg hlag]
    rcases hbad with ⟨s, hs, hcond⟩ | hlag2
    · have hfirst := firstStreamReason_isSome h.streams
        ⟨s, hs, streamSwitchReason_isSome s hcond⟩
      cases hfr : firstStreamReason h.streams with
      | some r =>
        exact ⟨r, rfl⟩
      | none =>
        rw [hfr] at hfirst
        cases hfirst
    · exact absurd hlag2 hlag

/-- After the timeout, Migrate and multi-tenant-reverse checks pass, the
verb reduces to the gated body over the operative workflow and effective
direction. -/
theorem workflowSwitchTraffic_eq_body (req : SwitchTrafficRequest) (env : SwitchEnv)
    (htimeout : ¬ (req.timeoutMs.getD defaultTimeoutMs < 1000))
    (hmig : ¬ env.wf.state.workflowType = StateWorkflowType.migrate)
    (hmt : ¬ (req.direction = Direction.backward ∧
        (!env.wf.state.writesSwitched && !req.switchPrimary) = false ∧
        env.wf.multiTenant = true)) :
    workflowSwitchTraffic req env =
      switchTrafficBody req (operativeView req env) (effectiveDirection req env)
        (writesAlreadySwitchedFlag req env.wf.state) (allowedLagSecs req) env.allCells := by
  simp only [workflowSwitchTraffic]
  rw [if_neg htimeout, if_neg hmig]
  by_cases hredir : req.direction = Direction.backward ∧
      (!env.wf.state.writesSwitched && !req.switchPrimary) = false
  · rw [if_pos hredir]
    have hmtf : ¬ (env.wf.multiTenant = true) := fun hmtt => hmt ⟨hredir.1, hredir.2, hmtt⟩
    rw [if_neg hmtf, operativeView, if_pos hredir, effectiveDirection, if_pos hredir]
  · rw [if_neg hredir, operativeView, if_neg hredir, effectiveDirection, if_neg hredir]

/-- C3 counterexample: a forward SwitchTraffic request for a workflow whose
writes are already switched proceeds to switch reads even though one of its
streams is in the Error state — no FAILED_PRECONDITION error is returned
and switching occurs, contradicting the claim as stated. -/
theorem C3_counterexample_switched_writes_skip_gate :
    (⟨StreamState.errored, ""⟩ : Stream) ∈ (exampleEnv true exampleErrorHealth).wf.health.streams ∧
    workflowSwitchTraffic exampleReq (exampleEnv true exampleErrorHealth) =
      SwitchTrafficResult.ok [SwitchPhase.reads] := by
  constructor
  · simp [exampleEnv, exampleView, exampleErrorHealth]
  · decide

/-- C3 (amended): for a SwitchTraffic request whose writes are not already
switched in the requested direction, a stream of the operative workflow in
the Error or Copying state or carrying the FROZEN message, or replication
lag above the allowed limit, makes the verb fail with the
FAILED_PRECONDITION cannot-switch error naming the reason, and no
switching occurs. -/
theorem C3_gate_blocks_unhealthy_switch (req : SwitchTrafficRequest) (env : SwitchEnv)
    (htimeout : ¬ (req.timeoutMs.getD defaultTimeoutMs < 1000))
    (hmig : ¬ env.wf.state.workflowType = StateWorkflowType.migrate)
    (hmt : ¬ (req.direction = Direction.backward ∧
        (!env.wf.state.writesSwitched && !req.switchPrimary) = false ∧
        env.wf.multiTenant = true))
    (hws : writesAlreadySwitchedFlag req env.wf.state = false)
    (hbad : (∃ s ∈ (operativeView req env).health.streams,
        s.state = StreamState.errored ∨ s.state = StreamState.copying ∨
        s.message = frozenMessage) ∨
      (operativeView req env).health.maxVReplicationTransactionLag > allowedLagSecs req) :
    ∃ reason, workflowSwitchTraffic req env =
      SwitchTrafficResult.errorResult ⟨ErrCode.failedPrecondition,
        "cannot switch traffic for workflow " ++ (operativeView req env).state.workflow ++
          " at this time: " ++ reason⟩ := by
  rw [workflowSwitchTraffic_eq_body req env htimeout hmig hmt]
  rcases canSwitch_isSome (operativeView req env).health (allowedLagSecs req) hbad with ⟨r, hr⟩
  refine ⟨r, ?_⟩
  simp only [switchTrafficBody]
  rw [if_neg (by rw [hws]; exact Bool.false_ne_true), hr]

/-- Witness for the amended C3: a forward switch of a workflow whose writes
are not switched and whose stream is still copying is refused. -/
theorem C3_gate_blocks_unhealthy_switch_witness :
    ∃ reason, workflowSwitchTraffic exampleReq (exampleEnv false exampleCopyHealth) =
      SwitchTrafficResult.errorResult ⟨ErrCode.failedPrecondition,
        "cannot switch traffic for workflow " ++
          (operativeView exampleReq (exampleEnv false exampleCopyHealth)).state.workflow ++
          " at this time: " ++ reason⟩ :=
  C3_gate_blocks_unhealthy_switch exampleReq (exampleEnv false exampleCopyHealth)
    (by decide) (by decide) (by decide) (by decide)
    (Or.inl ⟨⟨StreamState.copying, ""⟩, by decide, Or.inr (Or.inl rfl)⟩)

/-- C9: when writes are already switched in the requested direction, the
canSwitch gate is skipped entirely — the verb succeeds and dispatches the
requested phases regardless of the stream states, lag, or tablet refresh
outcome recorded in either workflow snapshot. -/
theorem C9_already_switched_skips_gate (req : SwitchTrafficRequest) (env : SwitchEnv)
    (htimeout : ¬ (req.timeoutMs.getD defaultTimeoutMs < 1000))
    (hmig : ¬ env.wf.state.workflowType = StateWorkflowType.migrate)
    (hmt : ¬ (req.direction = Direction.backward ∧
        (!env.wf.state.writesSwitched && !req.switchPrimary) = false ∧
        env.wf.multiTenant = true))
    (hws : writesAlreadySwitchedFlag req env.wf.state = true)
    (hreads : (req.switchReplica || req.switchRdonly) = true →
      switchReadsGate req (operativeView req env) (effectiveDirection req env) env.allCells =
        none) :
    workflowSwitchTraffic req env = SwitchTrafficResult.ok (switchTrafficPhases req) := by
  rw [workflowSwitchTraffic_eq_body req env htimeout hmig hmt]
  simp only [switchTrafficBody]
  rw [if_pos hws]
  by_cases hro : (req.switchReplica || req.switchRdonly) = true
  · rw [if_pos hro, hreads hro]
  · rw [if_neg hro]

/-- Witness for C9: the forward re-run over a switched workflow with an
erroring stream succeeds. -/
theorem C9_already_switched_skips_gate_witness :
    workflowSwitchTraffic exampleReq (exampleEnv true exampleErrorHealth) =
      SwitchTrafficResult.ok (switchTrafficPhases exampleReq) :=
  C9_already_switched_skips_gate exampleReq (exampleEnv true exampleErrorHealth)
    (by decide) (by decide) (by decide) (by decide) (by decide)

end Vitess
